import Mathlib

/-!
Verification of the SourceSense GitHub metadata-extraction pipeline.

Shallow embedding of the repository's Python sources:
  app/client.py      (GitHubClient.get_paginated_results)
  app/activities.py  (get_workflow_args, fetch_repositories, upload_to_atlan)
  app/transformer.py (GitHubRepository.get_attributes, GitHubTransformer.transform_row)
  app/workflow.py    (SourceSenseWorkflow.run)

Python dictionaries are modelled as association lists over a JSON-like
value type; external collaborators (the state store, the object store,
the SDK helpers) are taken as explicit parameters of the embedded
functions, exactly where the source calls out to them.
-/

/-- JSON-like values of a Python dict coming from the GitHub API. -/
inductive Value where
  | null
  | str (s : String)
  | nat (n : Nat)
  | bool (b : Bool)
  | dict (fields : List (String × Value))
deriving Repr

/-- A Python dictionary with string keys (e.g. a RawRecord). -/
abbrev Record := List (String × Value)

/-- Python dict lookup: d.get(k), first binding wins. -/
def dGet : Record → String → Option Value
  | [], _ => none
  | (k', v) :: rest, k => if k' = k then some v else dGet rest k

/-- Python `del d[k]` (and a no-op when the key is absent). -/
def dDel : Record → String → Record
  | [], _ => []
  | (k', v) :: rest, k => if k' = k then dDel rest k else (k', v) :: dDel rest k

/-- Python `d[k] = v`: the key holds exactly the new value afterwards. -/
def dSet (r : Record) (k : String) (v : Value) : Record :=
  dDel r k ++ [(k, v)]

/-- Python `d1.update(d2)`: keys of d2 overwrite those of d1. -/
def dUpdate (r : Record) (upd : Record) : Record :=
  upd.foldl (fun acc kv => dSet acc kv.1 kv.2) r

theorem dGet_dDel_self (r : Record) (k : String) : dGet (dDel r k) k = none := by
  induction r with
  | nil => rfl
  | cons kv rest ih =>
    obtain ⟨k', v⟩ := kv
    by_cases h : k' = k
    · simp [dDel, h, ih]
    · simp [dDel, dGet, h, ih]

theorem dGet_dDel_ne (r : Record) (k k' : String) (h : k' ≠ k) :
    dGet (dDel r k) k' = dGet r k' := by
  induction r with
  | nil => rfl
  | cons kv rest ih =>
    obtain ⟨k0, v⟩ := kv
    by_cases h0 : k0 = k
    · have hne : k0 ≠ k' := fun hc => h (hc ▸ h0)
      simp only [dDel, if_pos h0, dGet, if_neg hne, ih]
    · by_cases h1 : k0 = k'
      · simp only [dDel, if_neg h0, dGet, if_pos h1]
      · simp only [dDel, if_neg h0, dGet, if_neg h1, ih]

theorem dGet_append_left (r1 r2 : Record) (k : String) (h : dGet r1 k ≠ none) :
    dGet (r1 ++ r2) k = dGet r1 k := by
  induction r1 with
  | nil => simp [dGet] at h
  | cons kv rest ih =>
    obtain ⟨k', v⟩ := kv
    by_cases h0 : k' = k
    · simp [dGet, h0]
    · simp [dGet, h0] at h ⊢
      exact ih h

theorem dGet_append_right (r1 r2 : Record) (k : String) (h : dGet r1 k = none) :
    dGet (r1 ++ r2) k = dGet r2 k := by
  induction r1 with
  | nil => simp
  | cons kv rest ih =>
    obtain ⟨k', v⟩ := kv
    by_cases h0 : k' = k
    · simp [dGet, h0] at h
    · simp [dGet, h0] at h ⊢
      exact ih h

theorem dGet_dSet_self (r : Record) (k : String) (v : Value) :
    dGet (dSet r k v) k = some v := by
  unfold dSet
  rw [dGet_append_right _ _ _ (dGet_dDel_self r k)]
  simp [dGet]

theorem dGet_dSet_ne (r : Record) (k k' : String) (v : Value) (h : k' ≠ k) :
    dGet (dSet r k v) k' = dGet r k' := by
  unfold dSet
  rcases h0 : dGet (dDel r k) k' with _ | w
  · rw [dGet_append_right _ _ _ h0]
    rw [dGet_dDel_ne r k k' h] at h0
    rw [h0]
    simp [dGet, Ne.symm h]
  · rw [dGet_append_left _ _ _ (by rw [h0]; simp)]
    rw [← dGet_dDel_ne r k k' h, h0]

/-! ## app/client.py — GitHubClient.get_paginated_results

The server side of one pagination run is a chain of HTTP responses: the
list element i is what execute_http_get_request returns for the i-th URL
of the chain (none models a falsy response object), and the chain ends
where the server supplies no next link.  The Bool of the result records
whether the error branch (log and break) was taken. -/

/-- One HTTP page response: status code and decoded JSON array. -/
structure PageResponse where
  status : Nat
  items : List Value

/-- get_paginated_results: accumulate items page by page; on a missing
response or a non-200 status, log, break, and return what was
accumulated so far.  Second component: the error branch was taken. -/
def get_paginated_results : List (Option PageResponse) → List Value × Bool
  | [] => ([], false)
  | resp :: rest =>
    match resp with
    | none => ([], true)
    | some r =>
      if r.status ≠ 200 then ([], true)
      else
        let tail := get_paginated_results rest
        (r.items ++ tail.1, tail.2)

/-- A response at which the loop takes the error branch: no response
object, or a status other than 200. -/
def pageFails : Option PageResponse → Prop
  | none => True
  | some r => r.status ≠ 200

example : get_paginated_results [some ⟨200, [.nat 1]⟩, some ⟨500, [.nat 2]⟩]
    = ([.nat 1], true) := rfl

example : get_paginated_results [some ⟨200, [.nat 1]⟩, some ⟨200, [.nat 2]⟩]
    = ([.nat 1, .nat 2], false) := rfl

/-! ## app/activities.py lines 120-131 — the flatten step of fetch_repositories -/

/-- The per-record flatten loop body: project owner.login into the scalar
owner_login and drop the nested owner object; a missing or non-dict owner
yields owner_login = null. -/
def flatten (repo : Record) : Record :=
  match dGet repo "owner" with
  | some (.dict ownerDict) =>
      let login := match dGet ownerDict "login" with
        | some v => v
        | none => Value.null
      dDel (dSet repo "owner_login" login) "owner"
  | some _ =>
      dDel (dSet repo "owner_login" Value.null) "owner"
  | none =>
      dSet repo "owner_login" Value.null

/-! ## app/transformer.py — GitHubRepository and GitHubTransformer -/

/-- Python truthiness of a value, as used by clean_text's `if not text`. -/
def isFalsy : Value → Bool
  | .null => true
  | .str s => s == ""
  | .nat n => n == 0
  | .bool b => !b
  | .dict d => d.isEmpty

/-- text.encode('ascii', 'ignore').decode('ascii'): drop non-ASCII chars. -/
def asciiClean (s : String) : String :=
  String.mk (s.toList.filter (fun c => c.toNat < 128))

/-- clean_text from GitHubRepository.get_attributes. -/
def clean_text (v : Value) : Value :=
  if isFalsy v then v
  else match v with
    | .str s => .str (asciiClean s)
    | w => w

/-- obj.get("owner", \x7b\x7d).get("login"): errors (AttributeError) when a
non-dict owner value is present, since only dicts have .get. -/
def ownerLoginField (obj : Record) : Except String Value :=
  match dGet obj "owner" with
  | none => .ok Value.null
  | some (.dict d) => .ok ((dGet d "login").getD Value.null)
  | some _ => .error "AttributeError: get on a non-dict owner value"

/-- The attributes / custom_attributes pair built by
GitHubRepository.get_attributes. -/
structure GAttrs where
  attributes : Record
  custom_attributes : Record

/-- The 'attributes' dict literal of GitHubRepository.get_attributes. -/
def gaAttributes (bqn : Value → Value → Value) (obj : Record) : Record :=
  let cqn := (dGet obj "connection_qualified_name").getD (.str "")
  [("name", clean_text ((dGet obj "name").getD .null)),
   ("qualifiedName", bqn cqn ((dGet obj "full_name").getD (.str ""))),
   ("connectionQualifiedName", cqn),
   ("description", clean_text ((dGet obj "description").getD .null)),
   ("sourceUrl", (dGet obj "html_url").getD .null)]

/-- The 'custom_attributes' dict literal of get_attributes; gho is the
value of obj.get("owner", \x7b\x7d).get("login"). -/
def gaCustom (obj : Record) (gho : Value) : Record :=
  [("github_owner", gho),
   ("github_is_private", (dGet obj "private").getD (.bool false)),
   ("github_is_fork", (dGet obj "fork").getD (.bool false)),
   ("github_stargazers_count", (dGet obj "stargazers_count").getD (.nat 0)),
   ("github_watchers_count", (dGet obj "watchers_count").getD (.nat 0)),
   ("github_forks_count", (dGet obj "forks_count").getD (.nat 0)),
   ("github_open_issues_count", (dGet obj "open_issues_count").getD (.nat 0)),
   ("github_language", clean_text ((dGet obj "language").getD .null))]

/-- GitHubRepository.get_attributes.  build_atlas_qualified_name is an SDK
helper outside src/, taken as the parameter bqn.  The whole call fails
when reading the owner login raises (line 54). -/
def get_attributes (bqn : Value → Value → Value) (obj : Record) :
    Except String GAttrs :=
  match ownerLoginField obj with
  | .error e => .error e
  | .ok gho => .ok ⟨gaAttributes bqn obj, gaCustom obj gho⟩

/-- Log lines issued by transform_row. -/
inductive TLog where
  | unknownType (t : String)
  | transformError (msg : String)
deriving DecidableEq, Repr

/-- entity_class_definitions: logical type name to attribute builder.  A
builder may fail, as creator.get_attributes may raise. -/
abbrev EntityTable := List (String × (Record → Except String GAttrs))

/-- The table registered in GitHubTransformer.init. -/
def githubEntityTable (bqn : Value → Value → Value) : EntityTable :=
  [("REPOSITORY", get_attributes bqn)]

/-- dict.get on the entity table. -/
def tableGet : EntityTable → String → Option (Record → Except String GAttrs)
  | [], _ => none
  | (k', f) :: rest, k => if k' = k then some f else tableGet rest k

/-- typename.upper() (line 100), applied per character. -/
def pyUpper (s : String) : String :=
  String.mk (s.toList.map Char.toUpper)

/-- Line 101-103: entity_class_definitions or self.entity_class_definitions
(Python `or`: none and the empty dict are falsy). -/
def resolveTable (ecd : Option EntityTable) (selfTable : EntityTable) :
    EntityTable :=
  match ecd with
  | some t => if t.isEmpty then selfTable else t
  | none => selfTable

/-- Lines 105-110: default for a falsy connection_qualified_name kwarg. -/
def resolveCqn : Option String → String
  | some s => if s == "" then "default/github/connection" else s
  | none => "default/github/connection"

/-- Lines 106-112: default for a falsy connection_name kwarg. -/
def resolveCname : Option String → String
  | some s => if s == "" then "github-default" else s
  | none => "github-default"

/-- Lines 114-119: data.update with the two connection fields. -/
def rowData (data : Record) (cqn cname : Option String) : Record :=
  dSet (dSet data "connection_qualified_name" (.str (resolveCqn cqn)))
    "connection_name" (.str (resolveCname cname))

/-- GitHubTransformer.transform_row.  selfTable is
self.entity_class_definitions; enrich is the SDK helper
_enrich_entity_with_metadata (outside src/), which may raise.  Result:
the built entity (none when the record is dropped) and the error log. -/
def transform_row
    (selfTable : EntityTable)
    (enrich : String → String → Record → Except String GAttrs)
    (typename : String) (data : Record)
    (workflow_id workflow_run_id : String)
    (entity_class_definitions : Option EntityTable)
    (connection_qualified_name connection_name : Option String) :
    Option Record × List TLog :=
  let tname := pyUpper typename
  let table := resolveTable entity_class_definitions selfTable
  let data' := rowData data connection_qualified_name connection_name
  match tableGet table tname with
  | some creator =>
    match creator data' with
    | .error e => (none, [.transformError e])
    | .ok ea =>
      match enrich workflow_id workflow_run_id data' with
      | .error e => (none, [.transformError e])
      | .ok enriched =>
        let attrs := dUpdate ea.attributes enriched.attributes
        let custom := dUpdate ea.custom_attributes enriched.custom_attributes
        (some [("typeName", .str "Resource"),
               ("attributes", .dict attrs),
               ("customAttributes", .dict custom),
               ("status", .str "ACTIVE")], [])
  | none => (none, [.unknownType tname])

/-- Modelled from the spec: the SDK batch loop (transform_metadata, not
under src/) normalizes every record with transform_row, keeps the
non-null entities, and counts null results as normalization failures,
continuing with the rest of the batch. -/
def transform_metadata
    (selfTable : EntityTable)
    (enrich : String → String → Record → Except String GAttrs)
    (typename : String) (rows : List Record)
    (workflow_id workflow_run_id : String)
    (entity_class_definitions : Option EntityTable)
    (connection_qualified_name connection_name : Option String) :
    List Record × Nat × List TLog :=
  rows.foldr (fun row acc =>
    let step := transform_row selfTable enrich typename row workflow_id
        workflow_run_id entity_class_definitions connection_qualified_name
        connection_name
    match step.1 with
    | some e => (e :: acc.1, acc.2.1, step.2 ++ acc.2.2)
    | none => (acc.1, acc.2.1 + 1, step.2 ++ acc.2.2)) ([], 0, [])

/-! ## app/activities.py lines 46-87 — get_workflow_args retry loop -/

/-- Substring test on character lists (Python `in` on strings). -/
def hasSub : List Char → List Char → Bool
  | needle, [] => needle.isEmpty
  | needle, c :: tl => needle.isPrefixOf (c :: tl) || hasSub needle tl

/-- The classification "not found" in str(e).lower() of line 74 (the
lowering is done per character). -/
def isNotFoundMsg (msg : String) : Bool :=
  hasSub "not found".toList (msg.toList.map Char.toLower)

/-- os.path.join of a stored string value and a fresh path segment. -/
def pathJoin (v : Value) (seg : String) : Value :=
  match v with
  | .str s => .str (s ++ "/" ++ seg)
  | w => w

/-- Lines 64-69: default the output path components and stamp the run
identifiers.  temporary_path, buildOutput and the two identifiers come
from SDK helpers outside src/ and are taken as parameters. -/
def augmentArgs (temporary_path buildOutput wfId runId : String)
    (args : Record) : Record :=
  let a1 := dSet args "output_prefix" ((dGet args "output_prefix").getD (.str temporary_path))
  let a2 := dSet a1 "output_path" (pathJoin ((dGet a1 "output_prefix").getD .null) buildOutput)
  let a3 := dSet a2 "workflow_id" (.str wfId)
  dSet a3 "workflow_run_id" (.str runId)

/-- Observable outcome of the retry loop: final result, number of
StateStore.get_state attempts made, and the sleeps performed (seconds). -/
structure RetryRun where
  result : Except String Record
  attempts : Nat
  sleeps : List Nat
deriving Repr

/-- The body of the `for attempt in range(max_retries)` loop.  store maps
the attempt index to the outcome of StateStore.get_state (an external
collaborator); augment is applied on success inside the try block. -/
def gwaGo (store : Nat → Except String Record) (augment : Record → Record) :
    Nat → Nat → RetryRun
  | _, 0 => ⟨.error "Failed to retrieve workflow arguments after all retries.", 0, []⟩
  | attempt, remaining + 1 =>
    match store attempt with
    | .ok args => ⟨.ok (augment args), 1, []⟩
    | .error e =>
      if isNotFoundMsg e then
        if remaining > 0 then
          let rest := gwaGo store augment (attempt + 1) remaining
          ⟨rest.result, rest.attempts + 1, 2 :: rest.sleeps⟩
        else ⟨.error e, 1, []⟩
      else ⟨.error e, 1, []⟩

/-- get_workflow_args with max_retries = 5 and retry_delay_seconds = 2. -/
def get_workflow_args (store : Nat → Except String Record)
    (augment : Record → Record) : RetryRun :=
  gwaGo store augment 0 5

/-! ## app/activities.py lines 89-210 — fetch_repositories and staging -/

/-- A staging filesystem: path (as segments) to file contents; a stage
file's contents are the flat records it encodes. -/
abbrev FPath := List String

abbrev FS := FPath → Option (List Record)

/-- shutil.rmtree on the output path: everything under it disappears. -/
def rmtree (fs : FS) (p : FPath) : FS :=
  fun q => if p.isPrefixOf q then none else fs q

/-- Write one file. -/
def setFile (fs : FS) (p : FPath) (d : List Record) : FS :=
  fun q => if q = p then some d else fs q

/-- ActivityStatistics as returned by the fetch and upload stages. -/
structure ActivityStats where
  total_record_count : Nat
  chunk_count : Nat
  typename : String
deriving DecidableEq, Repr

/-- The non-null result of fetch_repositories: stats plus the local
parquet directory handed to the transform stage. -/
structure FetchOut where
  stats : ActivityStats
  local_path : FPath
deriving DecidableEq, Repr

/-- fetch_repositories: clean up the output path, short-circuit on an
empty fetch, otherwise flatten and write the parquet stage file.  raw is
the list returned by handler.fetch_repositories_metadata (external HTTP
collaborator behind it). -/
def fetch_repositories (fs : FS) (output_path : Option FPath)
    (raw : List Record) : Except String (Option FetchOut) × FS :=
  let fs1 := match output_path with
    | some p => rmtree fs p
    | none => fs
  if raw.isEmpty then (.ok none, fs1)
  else
    let flat := raw.map flatten
    match output_path with
    | none => (.error "output_path is required in workflow_args", fs1)
    | some p =>
      let localRaw := p ++ ["raw", "REPOSITORY"]
      let fileP := localRaw ++ ["repositories.parquet"]
      (.ok (some ⟨⟨flat.length, 1, "REPOSITORY"⟩, localRaw⟩),
       setFile fs1 fileP flat)

/-! ## app/activities.py lines 313-352 — upload_to_atlan -/

/-- The migration summary returned by
AtlanStorage.migrate_from_objectstore_to_atlan (external collaborator). -/
structure MigrationStats where
  migrated_files : Nat
  failed_migrations : Nat
  total_files : Nat
  failures : List String
deriving DecidableEq, Repr

/-- Errors raised by upload_to_atlan: the ValueError on a falsy output
path, and the ActivityError whose message carries the failure count. -/
inductive UploadErr where
  | valueError (msg : String)
  | activityError (failureCount : Nat)
deriving DecidableEq, Repr

/-- upload_to_atlan.  storePrefOf models get_object_store_prefix and
migrate the migration call, both SDK externals. -/
def upload_to_atlan (storePrefOf : String → String)
    (migrate : String → MigrationStats)
    (output_path : Option String) : Except UploadErr ActivityStats :=
  match output_path with
  | none => .error (.valueError "output_path is required for upload_to_atlan")
  | some p =>
    if p == "" then
      .error (.valueError "output_path is required for upload_to_atlan")
    else
      let stats := migrate (storePrefOf p)
      if stats.failures.isEmpty then
        .ok ⟨stats.migrated_files, stats.total_files, "atlan-upload-completed"⟩
      else
        .error (.activityError stats.failures.length)

/-! ## app/workflow.py — SourceSenseWorkflow.run -/

/-- Which later stages the orchestrator invoked during a run. -/
structure WfTrace where
  transformInvoked : Bool
  publishInvoked : Bool
deriving DecidableEq, Repr

def pathValue (p : FPath) : Value :=
  .str (String.intercalate "/" p)

/-- SourceSenseWorkflow.run: the five activities in order, each modelled
by its outcome; a stage raising fails the run, a null fetch or transform
result short-circuits the rest. -/
def runWorkflow (getArgs : Except String Record)
    (pre : Record → Except String Unit)
    (fetch : Record → Except String (Option FetchOut))
    (transform : Record → Except String (Option ActivityStats))
    (publish : Record → Except UploadErr ActivityStats) :
    Except String WfTrace :=
  match getArgs with
  | .error e => .error e
  | .ok args =>
    match pre args with
    | .error e => .error e
    | .ok _ =>
      match fetch args with
      | .error e => .error e
      | .ok none => .ok ⟨false, false⟩
      | .ok (some fr) =>
        let args2 := dSet args "local_parquet_path" (pathValue fr.local_path)
        match transform args2 with
        | .error e => .error e
        | .ok none => .ok ⟨true, false⟩
        | .ok (some _) =>
          match publish args2 with
          | .error _ => .error "publish stage failed"
          | .ok _ => .ok ⟨true, true⟩

/-- The customAttributes dict of a built entity. -/
def entityCustom (ent : Record) : Record :=
  match dGet ent "customAttributes" with
  | some (.dict ca) => ca
  | _ => []

/-! ## Supporting lemmas -/

theorem dGet_flatten_owner (r : Record) : dGet (flatten r) "owner" = none := by
  unfold flatten
  cases h : dGet r "owner" with
  | none =>
    rw [dGet_dSet_ne r "owner_login" "owner" Value.null (by decide)]
    exact h
  | some w => cases w <;> exact dGet_dDel_self _ "owner"

theorem dGet_rowData_owner (r : Record) (cqn cname : Option String) :
    dGet (rowData r cqn cname) "owner" = dGet r "owner" := by
  unfold rowData
  rw [dGet_dSet_ne _ _ _ _ (by decide), dGet_dSet_ne _ _ _ _ (by decide)]

theorem dGet_dUpdate_none (d u : Record) (k : String) (h : dGet u k = none) :
    dGet (dUpdate d u) k = dGet d k := by
  induction u generalizing d with
  | nil => rfl
  | cons kv tl ih =>
    obtain ⟨k', v⟩ := kv
    by_cases hk : k' = k
    · rw [dGet, if_pos hk] at h
      exact absurd h (by simp)
    · rw [dGet, if_neg hk] at h
      show dGet (dUpdate (dSet d k' v) tl) k = dGet d k
      rw [ih (dSet d k' v) h, dGet_dSet_ne d k' k v (Ne.symm hk)]

/-! ## Claim theorems -/

/-- C1 (counterexample): a pagination run whose first page succeeds with one
item and whose second page answers status 500 makes get_paginated_results take
its error branch, yet the caller receives the accumulated first-page items as
an ordinary return value.  This refutes the claim that a non-success page makes
the paginated fetch fail with an UpstreamError instead of handing the caller a
silently truncated result set: app/client.py only logs and breaks. -/
theorem C1_counterexample :
    pageFails (some ⟨500, [Value.nat 2]⟩)
    ∧ get_paginated_results [some ⟨200, [Value.nat 1]⟩, some ⟨500, [Value.nat 2]⟩]
        = ([Value.nat 1], true) := by
  constructor
  · show (500 : Nat) ≠ 200
    decide
  · rfl

/-- C1 (amended): for every pagination sequence, if the fetch reaches a page
that yields no response or a non-success status, it logs the failure, stops at
that page, and returns the items accumulated from the earlier pages as a
normal, silently truncated result; no error is raised to the caller. -/
theorem C1_truncated_pagination (good : List PageResponse)
    (bad : Option PageResponse) (rest : List (Option PageResponse))
    (hgood : ∀ p ∈ good, p.status = 200) (hbad : pageFails bad) :
    get_paginated_results (good.map some ++ bad :: rest)
      = ((good.map PageResponse.items).flatten, true) := by
  induction good with
  | nil =>
    cases bad with
    | none => simp [get_paginated_results]
    | some r =>
      have hb : r.status ≠ 200 := hbad
      simp [get_paginated_results, hb]
  | cons p tl ih =>
    have hp : p.status = 200 := hgood p (by simp)
    have ih' := ih (fun q hq => hgood q (by simp [hq]))
    simp [get_paginated_results, hp, ih']

/-- Witness for C1_truncated_pagination: one good page, then a 404 page. -/
theorem C1_truncated_pagination_witness :
    get_paginated_results [some ⟨200, [Value.nat 7]⟩, some ⟨404, []⟩, none]
      = ([Value.nat 7], true) := by
  have h := C1_truncated_pagination [⟨200, [Value.nat 7]⟩] (some ⟨404, []⟩) [none]
    (by intro p hp; simp only [List.mem_singleton] at hp; subst hp; rfl)
    (by show (404 : Nat) ≠ 200; decide)
  simpa using h

theorem gwaGo_succ (store : Nat → Except String Record)
    (aug : Record → Record) (a r : Nat) :
    gwaGo store aug a (r + 1)
      = match store a with
        | .ok args => ⟨.ok (aug args), 1, []⟩
        | .error e =>
          if isNotFoundMsg e then
            if r > 0 then
              ⟨(gwaGo store aug (a + 1) r).result,
               (gwaGo store aug (a + 1) r).attempts + 1,
               2 :: (gwaGo store aug (a + 1) r).sleeps⟩
            else ⟨.error e, 1, []⟩
          else ⟨.error e, 1, []⟩ := rfl

theorem gwaGo_all_not_found (store : Nat → Except String Record)
    (aug : Record → Record) :
    ∀ r a, 0 < r →
    (∀ i, a ≤ i → i < a + r → ∃ e, store i = .error e ∧ isNotFoundMsg e = true) →
    ∃ e, isNotFoundMsg e = true ∧
      gwaGo store aug a r = ⟨.error e, r, List.replicate (r - 1) 2⟩ := by
  intro r
  induction r with
  | zero => intro a h0; exact absurd h0 (by omega)
  | succ n ih =>
    intro a _ hall
    obtain ⟨e, he, hnf⟩ := hall a (le_refl a) (by omega)
    cases n with
    | zero =>
      refine ⟨e, hnf, ?_⟩
      simp [gwaGo, he, hnf]
    | succ m =>
      obtain ⟨e', hnf', hrec⟩ := ih (a + 1) (by omega)
        (fun i h1 h2 => hall i (by omega) (by omega))
      refine ⟨e', hnf', ?_⟩
      rw [gwaGo_succ, he]
      simp only [hnf, if_true, gt_iff_lt, Nat.succ_pos, if_pos, hrec]
      simp [List.replicate_succ]

theorem gwaGo_ok_after (store : Nat → Except String Record)
    (aug : Record → Record) :
    ∀ k a r args, k < r →
    (∀ i, a ≤ i → i < a + k → ∃ e, store i = .error e ∧ isNotFoundMsg e = true) →
    store (a + k) = .ok args →
    gwaGo store aug a r = ⟨.ok (aug args), k + 1, List.replicate k 2⟩ := by
  intro k
  induction k with
  | zero =>
    intro a r args hlt _ hok
    cases r with
    | zero => omega
    | succ n =>
      simp only [Nat.add_zero] at hok
      simp [gwaGo, hok]
  | succ m ih =>
    intro a r args hlt hall hok
    cases r with
    | zero => omega
    | succ n =>
      obtain ⟨e, he, hnf⟩ := hall a (le_refl a) (by omega)
      have hn : 0 < n := by omega
      have hrec := ih (a + 1) n args (by omega)
        (fun i h1 h2 => hall i (by omega) (by omega))
        (by rw [show a + 1 + m = a + (m + 1) by omega]; exact hok)
      rw [gwaGo_succ, he]
      simp only [hnf, if_true, gt_iff_lt, hn, if_pos, hrec]
      simp [List.replicate_succ]

/-- C2: the ResolveConfig stage (get_workflow_args) retries the
configuration read only on a not-found signal, up to 5 total attempts
with a fixed 2-second sleep between attempts; exhausting all 5 attempts
fails the stage, and any other error kind propagates after exactly one
attempt with no sleeps. -/
theorem C2_resolve_config_retry (store : Nat → Except String Record)
    (aug : Record → Record) :
    ((∀ i, i < 5 → ∃ e, store i = .error e ∧ isNotFoundMsg e = true) →
      ∃ e, isNotFoundMsg e = true ∧
        get_workflow_args store aug = ⟨.error e, 5, [2, 2, 2, 2]⟩)
    ∧ (∀ e, store 0 = .error e → isNotFoundMsg e = false →
        get_workflow_args store aug = ⟨.error e, 1, []⟩)
    ∧ (∀ k args, k < 5 →
        (∀ i, i < k → ∃ e, store i = .error e ∧ isNotFoundMsg e = true) →
        store k = .ok args →
        get_workflow_args store aug
          = ⟨.ok (aug args), k + 1, List.replicate k 2⟩) := by
  refine ⟨?_, ?_, ?_⟩
  · intro hall
    obtain ⟨e, hnf, h⟩ := gwaGo_all_not_found store aug 5 0 (by omega)
      (fun i h1 h2 => hall i (by omega))
    refine ⟨e, hnf, ?_⟩
    unfold get_workflow_args
    rw [h]
    rfl
  · intro e h0 hnf
    unfold get_workflow_args
    simp [gwaGo, h0, hnf]
  · intro k args hk hall hok
    exact gwaGo_ok_after store aug k 0 5 args hk
      (fun i h1 h2 => hall i (by omega)) (by simpa using hok)

/-- Witness for C2_resolve_config_retry: a store failing with an error
that carries no not-found signal propagates on the first attempt. -/
theorem C2_resolve_config_retry_witness :
    get_workflow_args (fun _ => .error "connection refused") id
      = ⟨.error "connection refused", 1, []⟩ :=
  (C2_resolve_config_retry (fun _ => .error "connection refused") id).2.1
    "connection refused" rfl (by decide)

/-- C3: when the fetch yields zero records, fetch_repositories returns a
null result and writes nothing (every path of the staging filesystem is
either absent or exactly what it was before), and the workflow run
treats that null result as a successful termination in which neither the
transform activity nor the publish activity is ever invoked (the run's
result does not depend on them at all). -/
theorem C3_empty_fetch_short_circuit (fs : FS) (out : Option FPath)
    (args : Record) (t : Record → Except String (Option ActivityStats))
    (pub : Record → Except UploadErr ActivityStats) :
    (fetch_repositories fs out []).1 = .ok none
    ∧ (∀ q, (fetch_repositories fs out []).2 q = none
          ∨ (fetch_repositories fs out []).2 q = fs q)
    ∧ runWorkflow (.ok args) (fun _ => .ok ())
        (fun _ => (fetch_repositories fs out []).1) t pub
        = .ok ⟨false, false⟩ := by
  have h1 : (fetch_repositories fs out []).1 = .ok none := by
    cases out <;> simp [fetch_repositories]
  refine ⟨h1, ?_, ?_⟩
  · intro q
    cases out with
    | none => right; simp [fetch_repositories]
    | some p =>
      by_cases hp : p.isPrefixOf q
      · left; simp [fetch_repositories, rmtree, hp]
      · right; simp [fetch_repositories, rmtree, hp]
  · simp [runWorkflow, h1]

/-- C4 (counterexample): two migration outcomes that both report one
failure out of three files but with different failure descriptions make
upload_to_atlan raise the very same error value, so the error the stage
fails with carries the failure count but cannot carry the failure list
(app/activities.py line 344 interpolates only len(upload_stats.failures)
into the ActivityError; the individual failures are only logged). -/
theorem C4_counterexample :
    upload_to_atlan id (fun _ => ⟨2, 1, 3, ["item one failed"]⟩) (some "out")
      = .error (.activityError 1)
    ∧ upload_to_atlan id (fun _ => ⟨2, 1, 3, ["a different failure"]⟩)
        (some "out") = .error (.activityError 1)
    ∧ (["item one failed"] : List String) ≠ ["a different failure"] := by
  refine ⟨rfl, rfl, by decide⟩

/-- C4 (amended): if the migration result reports any per-item failures
the publish stage fails fatally with an ActivityError carrying the
failure count — even when migrated_files is positive — while the
individual failure descriptions are only logged, not attached to the
error; if the failure list is empty the stage returns statistics whose
total_record_count equals the number of migrated files. -/
theorem C4_publish_batch (storePrefOf : String → String)
    (migrate : String → MigrationStats) (stats : MigrationStats)
    (p : String) (hp : p ≠ "")
    (hm : migrate (storePrefOf p) = stats) :
    (stats.failures ≠ [] →
      upload_to_atlan storePrefOf migrate (some p)
        = .error (.activityError stats.failures.length))
    ∧ (stats.failures = [] →
      upload_to_atlan storePrefOf migrate (some p)
        = .ok ⟨stats.migrated_files, stats.total_files,
               "atlan-upload-completed"⟩) := by
  have hpb : (p == "") = false := by
    simp [hp]
  constructor
  · intro hf
    simp [upload_to_atlan, hpb, hm, List.isEmpty_iff, hf]
  · intro hf
    simp [upload_to_atlan, hpb, hm, List.isEmpty_iff, hf]

/-- Witness for C4_publish_batch: one failure among three files raises
the aggregated error even though two files migrated; an empty failure
list yields statistics counting the three migrated files. -/
theorem C4_publish_batch_witness :
    upload_to_atlan id (fun _ => ⟨2, 1, 3, ["bad entity"]⟩) (some "out")
      = .error (.activityError 1)
    ∧ upload_to_atlan id (fun _ => ⟨3, 0, 3, []⟩) (some "out")
      = .ok ⟨3, 3, "atlan-upload-completed"⟩ := by
  constructor
  · exact (C4_publish_batch id (fun _ => ⟨2, 1, 3, ["bad entity"]⟩)
      ⟨2, 1, 3, ["bad entity"]⟩ "out" (by decide) rfl).1 (by decide)
  · exact (C4_publish_batch id (fun _ => ⟨3, 0, 3, []⟩)
      ⟨3, 0, 3, []⟩ "out" (by decide) rfl).2 rfl

theorem flatten_nondict (r : Record) (w : Value) (hw : dGet r "owner" = some w)
    (hnd : ∀ d, w ≠ Value.dict d) :
    flatten r = dDel (dSet r "owner_login" Value.null) "owner" := by
  unfold flatten
  rw [hw]
  cases w with
  | dict d => exact absurd rfl (hnd d)
  | null => rfl
  | str s => rfl
  | nat n => rfl
  | bool b => rfl

/-- C5: flatten maps a record with a nested owner dict carrying a login
to a record whose owner_login equals that login and in which no owner
key remains; a record with no owner object, or with a malformed
(non-dict) owner value, gets owner_login = null — and flatten is a total
function, so no error is raised in any of these cases. -/
theorem C5_flatten_owner (r : Record) :
    (∀ d v, dGet r "owner" = some (.dict d) → dGet d "login" = some v →
        dGet (flatten r) "owner_login" = some v
        ∧ dGet (flatten r) "owner" = none)
    ∧ (dGet r "owner" = none →
        dGet (flatten r) "owner_login" = some Value.null
        ∧ dGet (flatten r) "owner" = none)
    ∧ (∀ w, dGet r "owner" = some w → (∀ d, w ≠ Value.dict d) →
        dGet (flatten r) "owner_login" = some Value.null
        ∧ dGet (flatten r) "owner" = none) := by
  refine ⟨?_, ?_, ?_⟩
  · intro d v hd hv
    have hflat : flatten r = dDel (dSet r "owner_login" v) "owner" := by
      unfold flatten
      rw [hd]
      simp [hv]
    refine ⟨?_, dGet_flatten_owner r⟩
    rw [hflat,
      dGet_dDel_ne (dSet r "owner_login" v) "owner" "owner_login" (by decide),
      dGet_dSet_self]
  · intro hd
    have hflat : flatten r = dSet r "owner_login" Value.null := by
      unfold flatten
      rw [hd]
    refine ⟨?_, dGet_flatten_owner r⟩
    rw [hflat, dGet_dSet_self]
  · intro w hw hnd
    have hflat := flatten_nondict r w hw hnd
    refine ⟨?_, dGet_flatten_owner r⟩
    rw [hflat,
      dGet_dDel_ne (dSet r "owner_login" Value.null) "owner" "owner_login"
        (by decide),
      dGet_dSet_self]

/-- Witness for C5_flatten_owner: a record with owner.login = octocat. -/
theorem C5_flatten_owner_witness :
    dGet (flatten [("name", Value.str "repo"),
        ("owner", Value.dict [("login", Value.str "octocat")])]) "owner_login"
      = some (Value.str "octocat")
    ∧ dGet (flatten [("name", Value.str "repo"),
        ("owner", Value.dict [("login", Value.str "octocat")])]) "owner"
      = none :=
  (C5_flatten_owner _).1 [("login", Value.str "octocat")]
    (Value.str "octocat") rfl rfl

theorem gaAttributes_qualifiedName (bqn : Value → Value → Value)
    (obj : Record) :
    dGet (gaAttributes bqn obj) "qualifiedName"
      = some (bqn ((dGet obj "connection_qualified_name").getD (.str ""))
                  ((dGet obj "full_name").getD (.str ""))) := by
  simp [gaAttributes, dGet]

/-- C6: qualified-name construction is deterministic and a pure function
of the connection identifier and the record's natural key: repeated
evaluation of get_attributes on the same record is identical (the
embedding is a function), and any two records agreeing on
connection_qualified_name and full_name receive the same qualifiedName,
whatever the rest of their fields are. -/
theorem C6_qualified_name_pure (bqn : Value → Value → Value)
    (r1 r2 : Record)
    (hc : dGet r1 "connection_qualified_name"
        = dGet r2 "connection_qualified_name")
    (hf : dGet r1 "full_name" = dGet r2 "full_name") :
    get_attributes bqn r1 = get_attributes bqn r1
    ∧ (∀ a1 a2, get_attributes bqn r1 = .ok a1 →
        get_attributes bqn r2 = .ok a2 →
        dGet a1.attributes "qualifiedName"
          = dGet a2.attributes "qualifiedName") := by
  refine ⟨rfl, ?_⟩
  intro a1 a2 h1 h2
  unfold get_attributes at h1 h2
  cases ho1 : ownerLoginField r1 with
  | error e => rw [ho1] at h1; exact absurd h1 (by simp)
  | ok g1 =>
    simp only [ho1, Except.ok.injEq] at h1
    cases ho2 : ownerLoginField r2 with
    | error e => rw [ho2] at h2; exact absurd h2 (by simp)
    | ok g2 =>
      simp only [ho2, Except.ok.injEq] at h2
      subst h1
      subst h2
      rw [gaAttributes_qualifiedName, gaAttributes_qualifiedName, hc, hf]

/-- Witness for C6_qualified_name_pure: two records sharing connection
and full name but differing elsewhere get the same qualifiedName. -/
theorem C6_qualified_name_pure_witness :
    dGet (GAttrs.attributes
        ⟨gaAttributes (fun c f => Value.dict [("c", c), ("f", f)])
            [("connection_qualified_name", Value.str "conn"),
             ("full_name", Value.str "octo/repo"),
             ("name", Value.str "repo")],
         gaCustom [("connection_qualified_name", Value.str "conn"),
             ("full_name", Value.str "octo/repo"),
             ("name", Value.str "repo")] Value.null⟩) "qualifiedName"
      = dGet (GAttrs.attributes
        ⟨gaAttributes (fun c f => Value.dict [("c", c), ("f", f)])
            [("connection_qualified_name", Value.str "conn"),
             ("full_name", Value.str "octo/repo"),
             ("description", Value.str "other fields differ")],
         gaCustom [("connection_qualified_name", Value.str "conn"),
             ("full_name", Value.str "octo/repo"),
             ("description", Value.str "other fields differ")]
           Value.null⟩) "qualifiedName" :=
  (C6_qualified_name_pure (fun c f => Value.dict [("c", c), ("f", f)])
      [("connection_qualified_name", Value.str "conn"),
       ("full_name", Value.str "octo/repo"),
       ("name", Value.str "repo")]
      [("connection_qualified_name", Value.str "conn"),
       ("full_name", Value.str "octo/repo"),
       ("description", Value.str "other fields differ")]
      rfl rfl).2 _ _ rfl rfl

/-- C7: the fetch stage first deletes everything under the target output
path (shutil.rmtree) before writing the stage file, so re-running the
stage on the same records over whatever filesystem the first run left
behind produces exactly the result of a single run (writing is never
additive across retries), and after a run every pre-existing path under
the output path other than the freshly written stage file is gone. -/
theorem C7_write_stage_clears (fs : FS) (p : FPath) (raw : List Record) :
    fetch_repositories (fetch_repositories fs (some p) raw).2 (some p) raw
      = fetch_repositories fs (some p) raw
    ∧ (∀ q, p.isPrefixOf q →
        q ≠ p ++ ["raw", "REPOSITORY", "repositories.parquet"] →
        (fetch_repositories fs (some p) raw).2 q = none) := by
  by_cases hr : raw.isEmpty
  · have hstep : ∀ g : FS, fetch_repositories g (some p) raw
        = (.ok none, rmtree g p) := by
      intro g; simp [fetch_repositories, hr]
    constructor
    · rw [hstep, hstep]
      simp only [Prod.mk.injEq, true_and]
      funext q
      by_cases hq : p.isPrefixOf q <;> simp [rmtree, hq]
    · intro q hpre _
      rw [hstep]
      simp [rmtree, hpre]
  · have hstep : ∀ g : FS, fetch_repositories g (some p) raw
        = (.ok (some ⟨⟨(raw.map flatten).length, 1, "REPOSITORY"⟩,
                 p ++ ["raw", "REPOSITORY"]⟩),
           setFile (rmtree g p)
             (p ++ ["raw", "REPOSITORY", "repositories.parquet"])
             (raw.map flatten)) := by
      intro g; simp [fetch_repositories, hr]
    constructor
    · rw [hstep, hstep]
      simp only [Prod.mk.injEq, true_and]
      funext q
      by_cases hq : q = p ++ ["raw", "REPOSITORY", "repositories.parquet"]
      · simp [setFile, hq]
      · by_cases hpre : p.isPrefixOf q <;>
          simp [setFile, rmtree, hq, hpre]
    · intro q hpre hq
      rw [hstep]
      simp [setFile, rmtree, hq, hpre]

/-- Witness for C7_write_stage_clears: a stale file under the output
path is gone after the stage runs. -/
theorem C7_write_stage_clears_witness :
    (fetch_repositories (fun _ => some []) (some ["out"])
        [[("name", Value.str "r")]]).2 ["out", "stale"] = none :=
  (C7_write_stage_clears (fun _ => some []) ["out"]
    [[("name", Value.str "r")]]).2 ["out", "stale"] (by decide) (by decide)

/-- C8: a record whose logical type name has no entry in the entity
table makes transform_row yield no entity and log the unknown-typename
error (the record is skipped, the function returns normally instead of
raising), and a whole batch of such records is processed to the end:
every record is skipped and counted as a normalization failure, an
unknown type is never fatal to the batch. -/
theorem C8_unknown_type_skipped (selfTable : EntityTable)
    (enrich : String → String → Record → Except String GAttrs)
    (typename : String) (data : Record) (wfid runid : String)
    (ecd : Option EntityTable) (cqn cname : Option String)
    (rows : List Record)
    (h : tableGet (resolveTable ecd selfTable) (pyUpper typename) = none) :
    transform_row selfTable enrich typename data wfid runid ecd cqn cname
      = (none, [.unknownType (pyUpper typename)])
    ∧ transform_metadata selfTable enrich typename rows wfid runid ecd cqn
        cname
      = ([], rows.length,
         rows.map (fun _ => TLog.unknownType (pyUpper typename))) := by
  have hrow : ∀ d : Record,
      transform_row selfTable enrich typename d wfid runid ecd cqn cname
        = (none, [.unknownType (pyUpper typename)]) := by
    intro d
    simp only [transform_row]
    rw [h]
  refine ⟨hrow data, ?_⟩
  induction rows with
  | nil => rfl
  | cons r tl ih =>
    unfold transform_metadata at ih ⊢
    rw [List.foldr_cons, ih, hrow r]
    simp

/-- Witness for C8_unknown_type_skipped: the GitHub transformer's table
knows only REPOSITORY, so a DATABASE batch of two records is skipped
entirely, counted as two failures, with the batch loop completing. -/
theorem C8_unknown_type_skipped_witness :
    transform_row (githubEntityTable (fun c _ => c))
        (fun _ _ _ => .ok ⟨[], []⟩) "database" [("name", Value.str "x")]
        "wf" "run" none none none
      = (none, [.unknownType "DATABASE"])
    ∧ transform_metadata (githubEntityTable (fun c _ => c))
        (fun _ _ _ => .ok ⟨[], []⟩) "database"
        [[("name", Value.str "x")], [("name", Value.str "y")]]
        "wf" "run" none none none
      = ([], 2, [.unknownType "DATABASE", .unknownType "DATABASE"]) := by
  have h := C8_unknown_type_skipped (githubEntityTable (fun c _ => c))
    (fun _ _ _ => .ok ⟨[], []⟩) "database" [("name", Value.str "x")]
    "wf" "run" none none none
    [[("name", Value.str "x")], [("name", Value.str "y")]] rfl
  simpa using h

theorem transform_row_repo (bqn : Value → Value → Value)
    (enrich : String → String → Record → Except String GAttrs)
    (data : Record) (wfid runid : String) (cqn cname : Option String) :
    transform_row (githubEntityTable bqn) enrich "REPOSITORY" data wfid
        runid none cqn cname
      = match get_attributes bqn (rowData data cqn cname) with
        | .error e => (none, [.transformError e])
        | .ok ea =>
          match enrich wfid runid (rowData data cqn cname) with
          | .error e => (none, [.transformError e])
          | .ok enriched =>
            (some [("typeName", .str "Resource"),
                   ("attributes", .dict (dUpdate ea.attributes
                      enriched.attributes)),
                   ("customAttributes", .dict (dUpdate ea.custom_attributes
                      enriched.custom_attributes)),
                   ("status", .str "ACTIVE")], []) := rfl

theorem ownerLoginField_rowData_flatten (raw : Record)
    (cqn cname : Option String) :
    ownerLoginField (rowData (flatten raw) cqn cname) = .ok Value.null := by
  unfold ownerLoginField
  rw [dGet_rowData_owner, dGet_flatten_owner]

/-- C9: every record that went through the flatten step (which deletes
the nested owner key) is normalized to an entity whose custom attribute
github_owner is null, because get_attributes reads obj.get("owner",
\x7b\x7d).get("login") — a field flatten already removed — instead of
the flattened owner_login scalar.  The run-provenance enrichment is
assumed not to set a github_owner key of its own. -/
theorem C9_github_owner_null (bqn : Value → Value → Value)
    (enrich : String → String → Record → Except String GAttrs)
    (raw : Record) (wfid runid : String) (cqn cname : Option String)
    (ent : Record) (lg : List TLog)
    (henr : ∀ wf rn d g, enrich wf rn d = .ok g →
        dGet g.custom_attributes "github_owner" = none)
    (h : transform_row (githubEntityTable bqn) enrich "REPOSITORY"
        (flatten raw) wfid runid none cqn cname = (some ent, lg)) :
    dGet (entityCustom ent) "github_owner" = some Value.null := by
  rw [transform_row_repo] at h
  have hga : get_attributes bqn (rowData (flatten raw) cqn cname)
      = .ok ⟨gaAttributes bqn (rowData (flatten raw) cqn cname),
             gaCustom (rowData (flatten raw) cqn cname) Value.null⟩ := by
    unfold get_attributes
    rw [ownerLoginField_rowData_flatten]
  rw [hga] at h
  cases he : enrich wfid runid (rowData (flatten raw) cqn cname) with
  | error e => rw [he] at h; exact absurd h (by simp)
  | ok g =>
    rw [he] at h
    rw [Prod.ext_iff] at h
    obtain ⟨h1, _⟩ := h
    simp only [Option.some.injEq] at h1
    subst h1
    simp only [entityCustom, dGet]
    rw [if_neg (by decide : ¬("typeName" : String) = "customAttributes"),
        if_neg (by decide : ¬("attributes" : String) = "customAttributes")]
    show dGet (dUpdate (gaCustom (rowData (flatten raw) cqn cname) Value.null)
        g.custom_attributes) "github_owner" = some Value.null
    rw [dGet_dUpdate_none _ _ _ (henr _ _ _ _ he)]
    rfl

def C9bqn : Value → Value → Value := fun c _ => c

def C9enrich : String → String → Record → Except String GAttrs :=
  fun _ _ _ => .ok ⟨[], [("workflow_id", Value.str "wf")]⟩

def C9raw : Record :=
  [("full_name", Value.str "o/r"),
   ("owner", Value.dict [("login", Value.str "o")])]

def C9run : Option Record × List TLog :=
  transform_row (githubEntityTable C9bqn) C9enrich "REPOSITORY"
    (flatten C9raw) "wf" "run" none none none

def C9ent : Record := C9run.1.getD []

/-- Witness for C9_github_owner_null: a raw record whose owner.login is
present still normalizes to github_owner = null. -/
theorem C9_github_owner_null_witness :
    dGet (entityCustom C9ent) "github_owner" = some Value.null :=
  C9_github_owner_null C9bqn C9enrich C9raw "wf" "run" none none C9ent
    C9run.2
    (by intro wf rn d g hg
        injection hg with h2
        subst h2
        rfl)
    rfl

/-- C10: transform_row never propagates a failure of the per-record
work: its embedded result type has no error channel (the function is
total), and whenever the attribute builder taken from the entity table,
or the metadata enrichment helper, fails on a record, transform_row
returns the null entity together with the logged error — the record is
dropped and the failure cannot abort a batch. -/
theorem C10_transform_row_catches (selfTable : EntityTable)
    (enrich : String → String → Record → Except String GAttrs)
    (typename : String) (data : Record) (wfid runid : String)
    (ecd : Option EntityTable) (cqn cname : Option String)
    (creator : Record → Except String GAttrs)
    (hc : tableGet (resolveTable ecd selfTable) (pyUpper typename)
        = some creator) :
    (∀ msg, creator (rowData data cqn cname) = .error msg →
        transform_row selfTable enrich typename data wfid runid ecd cqn cname
          = (none, [.transformError msg]))
    ∧ (∀ ea msg, creator (rowData data cqn cname) = .ok ea →
        enrich wfid runid (rowData data cqn cname) = .error msg →
        transform_row selfTable enrich typename data wfid runid ecd cqn cname
          = (none, [.transformError msg])) := by
  constructor
  · intro msg hm
    simp only [transform_row, hc, hm]
  · intro ea msg hok hm
    simp only [transform_row, hc, hok, hm]

/-- Witness for C10_transform_row_catches: an attribute builder that
always raises yields a dropped record and a logged error. -/
theorem C10_transform_row_catches_witness :
    transform_row [("REPOSITORY", fun _ => .error "boom")]
        (fun _ _ _ => .ok ⟨[], []⟩) "repository" [("name", Value.str "x")]
        "wf" "run" none none none
      = (none, [.transformError "boom"]) :=
  (C10_transform_row_catches [("REPOSITORY", fun _ => .error "boom")]
    (fun _ _ _ => .ok ⟨[], []⟩) "repository" [("name", Value.str "x")]
    "wf" "run" none none none (fun _ => .error "boom") rfl).1 "boom" rfl
